import Mathlib

/-!
Verification of the Atlas attachment model of `src/net/atlas/mod.rs`:
the `Attachment` / `AttachmentInstance` data types, the on-chain value
translation `AttachmentInstance::try_new_from_value`, and the
`AtlasConfig` defaults.

Machine integers are modelled as `Nat` with explicit `% 2 ^ w` where the
Rust code narrows (`as u32`); byte vectors are `List Nat`; fallible Rust
code returns `Option`, and the observable outcome of
`try_new_from_value` (which can return `Ok`, `Err(())`, or panic through
`expect`) is the three-constructor type `AtlasResult`.
-/

/-- Clarity values (`vm::types::Value`), the subset of the tagged union that
`try_new_from_value` inspects: unsigned/signed 128-bit integers, booleans,
byte buffers (`SequenceData::Buffer`), ASCII strings, and named tuples
(`TupleData`, a list of field-name/value pairs). -/
inductive ClarityValue where
| UIntV (n : Nat)
| IntV (n : Int)
| BoolV (b : Bool)
| Buffer (data : List Nat)
| StringASCII (chars : List Nat)
| Tuple (fields : List (String × ClarityValue))

/-- TupleData::get: look up a named field of a tuple; `TupleData` keys are
unique, the lookup returns the first (only) binding, and a missing field is
an error (`none` here, `Err` in the source). -/
def tupleGet : List (String × ClarityValue) → String → Option ClarityValue
| [], _ => none
| (k, v) :: rest, key => if k = key then some v else tupleGet rest key

/-- util::hash::Hash160, a 160-bit (20-byte) hash, as its byte list. -/
structure Hash160 where
  data : List Nat
deriving DecidableEq

/-- Hash160::empty(): the all-zero 20-byte sentinel hash. -/
def Hash160.empty : Hash160 := ⟨List.replicate 20 0⟩

/-- Hash160::from_bytes: builds a hash from a byte slice, `some` exactly when
the slice is exactly 20 bytes long, `none` otherwise. -/
def Hash160.from_bytes (b : List Nat) : Option Hash160 :=
  if b.length = 20 then some ⟨b⟩ else none

/-- Modelled from the spec: `Hash160::from_data` (util::hash, outside src/) is
a deterministic 160-bit digest of a byte sequence (SHA256 followed by
RIPEMD160 in the source tree); modelled as an executable deterministic
function of the bytes producing exactly 20 bytes. -/
def Hash160.from_data (d : List Nat) : Hash160 :=
  ⟨(List.range 20).map (fun i => d.foldl (fun a b => (a * 31 + b + 1) % 256) i)⟩

/-- chainstate::burn::ConsensusHash (opaque 20-byte hash, passed through). -/
structure ConsensusHash where
  data : List Nat
deriving DecidableEq

/-- chainstate::burn::BlockHeaderHash (opaque 32-byte hash, passed through). -/
structure BlockHeaderHash where
  data : List Nat
deriving DecidableEq

/-- vm::types::QualifiedContractIdentifier: issuer principal and contract
name (opaque to Atlas, passed through and compared for membership). -/
structure QualifiedContractIdentifier where
  issuer : String
  name : String
deriving DecidableEq

/-- Modelled from the spec: `boot_code_id` (chainstate::stacks::boot, outside
src/) names a built-in boot contract, here the name-registration (bns)
contract, deployed at the fixed boot address. -/
def boot_code_id (name : String) : QualifiedContractIdentifier :=
  ⟨"ST000000000000000000002AMW42H", name⟩

/-- Attachment: a raw content blob (Vec<u8> in the source). -/
structure Attachment where
  content : List Nat
deriving DecidableEq

/-- Attachment::new: wraps the given bytes, verbatim. -/
def Attachment.new (content : List Nat) : Attachment := ⟨content⟩

/-- Attachment::hash(): the 160-bit content digest, `Hash160::from_data`
applied to `content`. -/
def Attachment.hash (a : Attachment) : Hash160 := Hash160.from_data a.content

/-- AttachmentInstance: the on-chain pointer record produced by
`try_new_from_value`, with the same fields as the Rust struct. -/
structure AttachmentInstance where
  content_hash : Hash160
  page_index : Nat
  position_in_page : Nat
  block_height : Nat
  consensus_hash : ConsensusHash
  block_header_hash : BlockHeaderHash
  metadata : String
  contract_id : QualifiedContractIdentifier
deriving DecidableEq

/-- Big-endian fixed-width byte encoding of a natural number. -/
def natToBEBytes (width n : Nat) : List Nat :=
  (List.range width).map (fun i => n / 256 ^ (width - 1 - i) % 256)

/-- Hex digit for a value below 16, lowercase. -/
def hexDigitChar (n : Nat) : Char :=
  if n < 10 then Char.ofNat (48 + n) else Char.ofNat (87 + n)

/-- util::hash::to_hex: lowercase hex encoding of a byte sequence. -/
def to_hex (bs : List Nat) : String :=
  String.join (bs.map (fun b => String.mk [hexDigitChar (b / 16 % 16), hexDigitChar (b % 16)]))

mutual

/-- Modelled from the spec: consensus serialization of a Clarity value
(`StacksMessageCodec::consensus_serialize`, outside src/): a type-tag
prefixed byte encoding. It fails exactly when the value is not well formed
at the codec layer — an integer outside its 128-bit range, a buffer entry
that is not a byte, a non-ASCII character in an ASCII string, or a length
that does not fit the 4-byte length prefix. The contract layer guarantees
well-formed values, so a failure here is a protocol violation, which
`try_new_from_value` treats as fatal (`expect`). -/
def consensusSerialize : ClarityValue → Option (List Nat)
| .IntV n =>
    if -(2 ^ 127) ≤ n ∧ n < 2 ^ 127 then
      some (0x00 :: natToBEBytes 16 (n % (2 ^ 128 : Nat)).toNat)
    else none
| .UIntV n =>
    if n < 2 ^ 128 then some (0x01 :: natToBEBytes 16 n) else none
| .Buffer d =>
    if d.length < 2 ^ 32 ∧ ∀ b ∈ d, b < 256 then
      some (0x02 :: (natToBEBytes 4 d.length ++ d))
    else none
| .BoolV b => some [if b then 0x03 else 0x04]
| .StringASCII s =>
    if s.length < 2 ^ 32 ∧ ∀ c ∈ s, c < 128 then
      some (0x0d :: (natToBEBytes 4 s.length ++ s))
    else none
| .Tuple fs =>
    match serializeTupleFields fs with
    | some body =>
        if fs.length < 2 ^ 32 then
          some (0x0c :: (natToBEBytes 4 fs.length ++ body))
        else none
    | none => none

/-- Serialization of the named fields of a tuple, in order: each field is a
length-prefixed ASCII name followed by the serialized value; fails when any
field name is over-long or non-ASCII, or any field value fails. -/
def serializeTupleFields : List (String × ClarityValue) → Option (List Nat)
| [] => some []
| (k, v) :: rest =>
    match consensusSerialize v, serializeTupleFields rest with
    | some vb, some rb =>
        if k.length ≤ 128 ∧ ∀ c ∈ k.toList, c.toNat < 128 then
          some ((k.length :: k.toList.map Char.toNat) ++ vb ++ rb)
        else none
    | _, _ => none

end

/-- Observable outcome of `AttachmentInstance::try_new_from_value`:
`ok` is `Ok(instance)`, `malformedInstance` is `Err(())` (the recoverable
MalformedInstance condition), and `fatal` is the unrecoverable panic raised
by `.expect("FATAL: invalid metadata")`. -/
inductive AtlasResult where
| ok (inst : AttachmentInstance)
| malformedInstance
| fatal (msg : String)
deriving DecidableEq

/-- AttachmentInstance::try_new_from_value, line for line from the source:
the outer value must be a tuple with an `attachment` tuple field whose
`hash` is a buffer and whose `page-index` and `position-in-page` are
unsigned integers; an empty hash buffer becomes `Hash160::empty()`, any
other buffer goes through `Hash160::from_bytes` (20 bytes or `Err`); an
absent `metadata` field yields the empty string, a present one is
consensus-serialized (panicking on failure) then hex-encoded; `page-index`
and `position-in-page` are narrowed with `as u32`, i.e. reduced mod 2^32. -/
def AttachmentInstance.try_new_from_value
    (value : ClarityValue)
    (contract_id : QualifiedContractIdentifier)
    (consensus_hash : ConsensusHash)
    (block_header_hash : BlockHeaderHash)
    (block_height : Nat) : AtlasResult :=
  match value with
  | .Tuple attachment =>
    match tupleGet attachment "attachment" with
    | some (.Tuple attachment_data) =>
      match tupleGet attachment_data "hash",
            tupleGet attachment_data "page-index",
            tupleGet attachment_data "position-in-page" with
      | some (.Buffer content_hash_data), some (.UIntV page_index),
        some (.UIntV position_in_page) =>
        match (if content_hash_data.isEmpty then some Hash160.empty
               else Hash160.from_bytes content_hash_data) with
        | none => .malformedInstance
        | some content_hash =>
          match tupleGet attachment_data "metadata" with
          | some metadata =>
            match consensusSerialize metadata with
            | some serialized =>
                .ok { consensus_hash := consensus_hash,
                      block_header_hash := block_header_hash,
                      content_hash := content_hash,
                      page_index := page_index % 2 ^ 32,
                      position_in_page := position_in_page % 2 ^ 32,
                      block_height := block_height,
                      metadata := to_hex serialized,
                      contract_id := contract_id }
            | none => .fatal "FATAL: invalid metadata"
          | none =>
              .ok { consensus_hash := consensus_hash,
                    block_header_hash := block_header_hash,
                    content_hash := content_hash,
                    page_index := page_index % 2 ^ 32,
                    position_in_page := position_in_page % 2 ^ 32,
                    block_height := block_height,
                    metadata := "",
                    contract_id := contract_id }
      | _, _, _ => .malformedInstance
    | _ => .malformedInstance
  | _ => .malformedInstance

/-- AtlasConfig: the monitored contract set (a HashSet in the source, a list
here) and the attachment size bound. -/
structure AtlasConfig where
  contracts : List QualifiedContractIdentifier
  attachments_max_size : Nat

/-- AtlasConfig::default: monitors exactly the built-in bns contract, with a
1_048_576-byte size bound. -/
def AtlasConfig.default : AtlasConfig :=
  { contracts := [boot_code_id "bns"], attachments_max_size := 1048576 }

/-- Cap on inventory pages per request (src constant). -/
def MAX_ATTACHMENT_INV_PAGES_PER_REQUEST : Nat := 8

/-! Helper predicates and shared lemmas about the translation. -/

/-- The structural shape `try_new_from_value` requires before it looks at
field contents: an outer tuple with an `attachment` tuple field whose
`hash` is a buffer and whose `page-index` and `position-in-page` are
unsigned integers. -/
def wellShaped (v : ClarityValue) : Bool :=
  match v with
  | .Tuple fs =>
    match tupleGet fs "attachment" with
    | some (.Tuple afs) =>
      (match tupleGet afs "hash" with
       | some (.Buffer _) => true
       | _ => false)
      && (match tupleGet afs "page-index" with
          | some (.UIntV _) => true
          | _ => false)
      && (match tupleGet afs "position-in-page" with
          | some (.UIntV _) => true
          | _ => false)
    | _ => false
  | _ => false

/-- The metadata field, when present, serializes successfully (no panic). -/
def metadataOk (afs : List (String × ClarityValue)) : Prop :=
  ∀ m, tupleGet afs "metadata" = some m → (consensusSerialize m).isSome = true

/-- The hash normalization step succeeds exactly on an empty buffer (giving
the sentinel) or a 20-byte buffer (giving that hash). -/
theorem hash_option_resolves (hd : List Nat) (hOk : hd = [] ∨ hd.length = 20) :
    (if hd.isEmpty then some Hash160.empty else Hash160.from_bytes hd) =
      some (if hd.isEmpty then Hash160.empty else ⟨hd⟩) := by
  rcases hOk with h | h
  · subst h; rfl
  · cases hd with
    | nil => simp at h
    | cons a t => simp [Hash160.from_bytes, h]

/-- On a well-shaped input with a resolvable hash, the translation reaches
the metadata step, and its outcome is determined by the metadata field:
absent gives an empty metadata string, serializable gives its hex encoding,
unserializable panics. -/
theorem try_new_from_value_success_cases
    (fs afs : List (String × ClarityValue)) (hd : List Nat) (p q : Nat)
    (c : QualifiedContractIdentifier) (ch : ConsensusHash)
    (bh : BlockHeaderHash) (n : Nat) (h160 : Hash160)
    (hA : tupleGet fs "attachment" = some (.Tuple afs))
    (hH : tupleGet afs "hash" = some (.Buffer hd))
    (hP : tupleGet afs "page-index" = some (.UIntV p))
    (hQ : tupleGet afs "position-in-page" = some (.UIntV q))
    (hHash : (if hd.isEmpty then some Hash160.empty else Hash160.from_bytes hd) = some h160) :
    (tupleGet afs "metadata" = none →
      AttachmentInstance.try_new_from_value (.Tuple fs) c ch bh n =
        .ok ⟨h160, p % 2 ^ 32, q % 2 ^ 32, n, ch, bh, "", c⟩)
    ∧ (∀ m bs, tupleGet afs "metadata" = some m → consensusSerialize m = some bs →
      AttachmentInstance.try_new_from_value (.Tuple fs) c ch bh n =
        .ok ⟨h160, p % 2 ^ 32, q % 2 ^ 32, n, ch, bh, to_hex bs, c⟩)
    ∧ (∀ m, tupleGet afs "metadata" = some m → consensusSerialize m = none →
      AttachmentInstance.try_new_from_value (.Tuple fs) c ch bh n =
        .fatal "FATAL: invalid metadata") := by
  refine ⟨?_, ?_, ?_⟩
  · intro hMd
    simp only [AttachmentInstance.try_new_from_value, hA, hH, hP, hQ, hHash, hMd]
  · intro m bs hMd hS
    simp only [AttachmentInstance.try_new_from_value, hA, hH, hP, hQ, hHash, hMd, hS]
  · intro m hMd hS
    simp only [AttachmentInstance.try_new_from_value, hA, hH, hP, hQ, hHash, hMd, hS]

/-! Concrete sample inputs used to exercise the translation. -/

/-- Sample contract identifier (the monitored bns contract). -/
def cid0 : QualifiedContractIdentifier := boot_code_id "bns"

/-- Sample consensus hash. -/
def ch0 : ConsensusHash := ⟨List.replicate 20 1⟩

/-- Sample block header hash. -/
def bhh0 : BlockHeaderHash := ⟨List.replicate 32 2⟩

/-- Well-formed inner attachment tuple: 20-byte hash, small coordinates,
no metadata. -/
def sampleAfs : List (String × ClarityValue) :=
  [("hash", .Buffer (List.replicate 20 7)),
   ("page-index", .UIntV 3),
   ("position-in-page", .UIntV 4)]

/-- Well-formed outer value wrapping `sampleAfs`. -/
def sampleFs : List (String × ClarityValue) := [("attachment", .Tuple sampleAfs)]

/-! Claim theorems. -/

/-- C3: every input value that does not match the expected nested structure
(outer value not a tuple, no `attachment` tuple field, or `hash`,
`page-index`, `position-in-page` missing or of the wrong type) makes
`try_new_from_value` return the MalformedInstance error. -/
theorem try_new_from_value_malformed_of_not_wellShaped
    (v : ClarityValue) (c : QualifiedContractIdentifier) (ch : ConsensusHash)
    (bh : BlockHeaderHash) (n : Nat) (h : wellShaped v = false) :
    AttachmentInstance.try_new_from_value v c ch bh n = .malformedInstance := by
  cases v
  case Tuple fs =>
    rw [AttachmentInstance.try_new_from_value]
    repeat' split
    all_goals first
    | rfl
    | (exfalso; simp_all [wellShaped])
  all_goals rfl

/-- C3 witness: a non-tuple value is rejected as malformed. -/
theorem try_new_from_value_malformed_of_not_wellShaped_witness :
    AttachmentInstance.try_new_from_value (.UIntV 0) cid0 ch0 bhh0 0 =
      .malformedInstance :=
  try_new_from_value_malformed_of_not_wellShaped (.UIntV 0) cid0 ch0 bhh0 0 rfl

/-- C4: on every successful call, the produced instance carries the caller's
`consensus_hash`, `block_header_hash`, `block_height` and `contract_id`
unchanged. -/
theorem try_new_from_value_preserves_context
    (v : ClarityValue) (c : QualifiedContractIdentifier) (ch : ConsensusHash)
    (bh : BlockHeaderHash) (n : Nat) (inst : AttachmentInstance)
    (h : AttachmentInstance.try_new_from_value v c ch bh n = .ok inst) :
    inst.consensus_hash = ch ∧ inst.block_header_hash = bh ∧
      inst.block_height = n ∧ inst.contract_id = c := by
  cases v
  all_goals rw [AttachmentInstance.try_new_from_value] at h
  case Tuple fs =>
    repeat' split at h
    all_goals cases h
    all_goals exact ⟨rfl, rfl, rfl, rfl⟩
  all_goals cases h

/-- C4 witness: a concrete successful call preserves the context arguments. -/
theorem try_new_from_value_preserves_context_witness :
    (⟨⟨List.replicate 20 7⟩, 3, 4, 11, ch0, bhh0, "", cid0⟩ :
        AttachmentInstance).consensus_hash = ch0 ∧
    (⟨⟨List.replicate 20 7⟩, 3, 4, 11, ch0, bhh0, "", cid0⟩ :
        AttachmentInstance).block_header_hash = bhh0 ∧
    (⟨⟨List.replicate 20 7⟩, 3, 4, 11, ch0, bhh0, "", cid0⟩ :
        AttachmentInstance).block_height = 11 ∧
    (⟨⟨List.replicate 20 7⟩, 3, 4, 11, ch0, bhh0, "", cid0⟩ :
        AttachmentInstance).contract_id = cid0 :=
  try_new_from_value_preserves_context (.Tuple sampleFs) cid0 ch0 bhh0 11
    ⟨⟨List.replicate 20 7⟩, 3, 4, 11, ch0, bhh0, "", cid0⟩ rfl

/-- C5: `Attachment::hash()` is a deterministic pure function of `content`
(equal contents give equal hashes) and its result is a 160-bit (20-byte)
digest. -/
theorem attachment_hash_deterministic_160bit (a b : Attachment)
    (h : a.content = b.content) :
    a.hash = b.hash ∧ a.hash.data.length = 20 := by
  constructor
  · rw [Attachment.hash, Attachment.hash, h]
  · simp [Attachment.hash, Hash160.from_data]

/-- C5 witness: two attachments with the same concrete content hash alike,
and the digest is 20 bytes. -/
theorem attachment_hash_deterministic_160bit_witness :
    (Attachment.new [1, 2, 3]).hash = (Attachment.new [1, 2, 3]).hash ∧
      (Attachment.new [1, 2, 3]).hash.data.length = 20 :=
  attachment_hash_deterministic_160bit (Attachment.new [1, 2, 3])
    (Attachment.new [1, 2, 3]) rfl

/-- C7: `try_new_from_value` is a pure translation: its result depends only
on its five arguments, and equal arguments give equal results. -/
theorem try_new_from_value_deterministic
    (v w : ClarityValue) (c d : QualifiedContractIdentifier)
    (ch ch2 : ConsensusHash) (bh bh2 : BlockHeaderHash) (n m : Nat)
    (hv : v = w) (hc : c = d) (hch : ch = ch2) (hbh : bh = bh2) (hn : n = m) :
    AttachmentInstance.try_new_from_value v c ch bh n =
      AttachmentInstance.try_new_from_value w d ch2 bh2 m := by
  subst hv hc hch hbh hn
  rfl

/-- C7 witness: two runs on equal concrete inputs agree. -/
theorem try_new_from_value_deterministic_witness :
    AttachmentInstance.try_new_from_value (.Tuple sampleFs) cid0 ch0 bhh0 11 =
      AttachmentInstance.try_new_from_value (.Tuple sampleFs) cid0 ch0 bhh0 11 :=
  try_new_from_value_deterministic (.Tuple sampleFs) (.Tuple sampleFs)
    cid0 cid0 ch0 ch0 bhh0 bhh0 11 11 rfl rfl rfl rfl rfl

/-- C8: the default `AtlasConfig` bounds attachments at 1,048,576 bytes and
monitors exactly the built-in bns contract, and the inventory-page batching
cap is 8. -/
theorem atlas_config_default_values :
    AtlasConfig.default.attachments_max_size = 1048576 ∧
      AtlasConfig.default.contracts = [boot_code_id "bns"] ∧
      MAX_ATTACHMENT_INV_PAGES_PER_REQUEST = 8 :=
  ⟨rfl, rfl, rfl⟩

/-- C10: `Attachment::new` stores the given bytes verbatim for every content,
with no length validation at construction: it also accepts content longer
than the default `attachments_max_size`. -/
theorem attachment_new_verbatim (c : List Nat) :
    (Attachment.new c).content = c ∧
      (c.length > AtlasConfig.default.attachments_max_size →
        (Attachment.new c).content = c) :=
  ⟨rfl, fun _ => rfl⟩

/-- C10 witness: even content one byte over the default size bound is stored
verbatim by the constructor. -/
theorem attachment_new_verbatim_witness :
    (Attachment.new (List.replicate 1048577 3)).content =
      List.replicate 1048577 3 :=
  (attachment_new_verbatim (List.replicate 1048577 3)).2
    (by rw [List.length_replicate]; norm_num [AtlasConfig.default])

/-- On well-shaped input whose hash buffer does not resolve (non-empty and
not 20 bytes), the translation returns the MalformedInstance error. -/
theorem try_new_from_value_hash_none
    (fs afs : List (String × ClarityValue)) (hd : List Nat) (p q : Nat)
    (c : QualifiedContractIdentifier) (ch : ConsensusHash)
    (bh : BlockHeaderHash) (n : Nat)
    (hA : tupleGet fs "attachment" = some (.Tuple afs))
    (hH : tupleGet afs "hash" = some (.Buffer hd))
    (hP : tupleGet afs "page-index" = some (.UIntV p))
    (hQ : tupleGet afs "position-in-page" = some (.UIntV q))
    (hHash : (if hd.isEmpty then some Hash160.empty else Hash160.from_bytes hd) = none) :
    AttachmentInstance.try_new_from_value (.Tuple fs) c ch bh n =
      .malformedInstance := by
  simp only [AttachmentInstance.try_new_from_value, hA, hH, hP, hQ, hHash]

/-- On well-shaped input with resolvable hash and serializable (or absent)
metadata, the translation succeeds, producing the normalized hash and the
mod-2^32 narrowed coordinates. -/
theorem try_new_from_value_ok_of_shape
    (fs afs : List (String × ClarityValue)) (hd : List Nat) (p q : Nat)
    (c : QualifiedContractIdentifier) (ch : ConsensusHash)
    (bh : BlockHeaderHash) (n : Nat) (h160 : Hash160)
    (hA : tupleGet fs "attachment" = some (.Tuple afs))
    (hH : tupleGet afs "hash" = some (.Buffer hd))
    (hP : tupleGet afs "page-index" = some (.UIntV p))
    (hQ : tupleGet afs "position-in-page" = some (.UIntV q))
    (hHash : (if hd.isEmpty then some Hash160.empty else Hash160.from_bytes hd) = some h160)
    (hM : metadataOk afs) :
    ∃ inst, AttachmentInstance.try_new_from_value (.Tuple fs) c ch bh n = .ok inst
      ∧ inst.content_hash = h160 ∧ inst.page_index = p % 2 ^ 32
      ∧ inst.position_in_page = q % 2 ^ 32 := by
  cases hMd : tupleGet afs "metadata" with
  | none =>
    exact ⟨_, (try_new_from_value_success_cases fs afs hd p q c ch bh n h160
      hA hH hP hQ hHash).1 hMd, rfl, rfl, rfl⟩
  | some m =>
    obtain ⟨bs, hbs⟩ := Option.isSome_iff_exists.mp (hM m hMd)
    exact ⟨_, (try_new_from_value_success_cases fs afs hd p q c ch bh n h160
      hA hH hP hQ hHash).2.1 m bs hMd hbs, rfl, rfl, rfl⟩

/-- C2: on a well-shaped input, a non-empty hash buffer that is not exactly
20 bytes (160 bits) is rejected as MalformedInstance; an empty hash buffer
succeeds (other fields being well formed) with the sentinel
`Hash160::empty()`; a 20-byte hash buffer succeeds with exactly those
bytes as `content_hash`. -/
theorem try_new_from_value_hash_field_cases
    (fs afs : List (String × ClarityValue)) (hd : List Nat) (p q : Nat)
    (c : QualifiedContractIdentifier) (ch : ConsensusHash)
    (bh : BlockHeaderHash) (n : Nat)
    (hA : tupleGet fs "attachment" = some (.Tuple afs))
    (hH : tupleGet afs "hash" = some (.Buffer hd))
    (hP : tupleGet afs "page-index" = some (.UIntV p))
    (hQ : tupleGet afs "position-in-page" = some (.UIntV q)) :
    (hd ≠ [] → hd.length ≠ 20 →
      AttachmentInstance.try_new_from_value (.Tuple fs) c ch bh n =
        .malformedInstance)
    ∧ (metadataOk afs → hd = [] →
      ∃ inst, AttachmentInstance.try_new_from_value (.Tuple fs) c ch bh n = .ok inst
        ∧ inst.content_hash = Hash160.empty)
    ∧ (metadataOk afs → hd.length = 20 →
      ∃ inst, AttachmentInstance.try_new_from_value (.Tuple fs) c ch bh n = .ok inst
        ∧ inst.content_hash = ⟨hd⟩) := by
  refine ⟨?_, ?_, ?_⟩
  · intro hne hlen
    have hHash : (if hd.isEmpty then some Hash160.empty else Hash160.from_bytes hd) = none := by
      cases hd with
      | nil => exact absurd rfl hne
      | cons a t =>
        simp only [List.length_cons] at hlen
        simp [Hash160.from_bytes]
        omega
    exact try_new_from_value_hash_none fs afs hd p q c ch bh n hA hH hP hQ hHash
  · intro hM he
    subst he
    obtain ⟨inst, hi, hc2, _, _⟩ := try_new_from_value_ok_of_shape fs afs [] p q c ch bh n
      Hash160.empty hA hH hP hQ rfl hM
    exact ⟨inst, hi, hc2⟩
  · intro hM hlen
    have hne : hd.isEmpty = false := by
      cases hd with
      | nil => simp at hlen
      | cons a t => rfl
    have hHash : (if hd.isEmpty then some Hash160.empty else Hash160.from_bytes hd) =
        some ⟨hd⟩ := by
      simp [hne, Hash160.from_bytes, if_pos hlen]
    obtain ⟨inst, hi, hc2, _, _⟩ := try_new_from_value_ok_of_shape fs afs hd p q c ch bh n
      ⟨hd⟩ hA hH hP hQ hHash hM
    exact ⟨inst, hi, hc2⟩

/-- C2 witness: a concrete 20-byte hash buffer is copied into the produced
instance's `content_hash`. -/
theorem try_new_from_value_hash_field_cases_witness :
    ∃ inst, AttachmentInstance.try_new_from_value (.Tuple sampleFs) cid0 ch0 bhh0 11 =
        .ok inst ∧ inst.content_hash = ⟨List.replicate 20 7⟩ :=
  (try_new_from_value_hash_field_cases sampleFs sampleAfs (List.replicate 20 7) 3 4
      cid0 ch0 bhh0 11 rfl rfl rfl rfl).2.2
    (fun m hm => Option.noConfusion hm) (by simp)

/-- C9: a well-shaped value with a resolvable hash and no `metadata` field
still succeeds, and the produced instance's `metadata` is the empty string:
metadata is optional and its absence is not a MalformedInstance error. -/
theorem try_new_from_value_metadata_absent
    (fs afs : List (String × ClarityValue)) (hd : List Nat) (p q : Nat)
    (c : QualifiedContractIdentifier) (ch : ConsensusHash)
    (bh : BlockHeaderHash) (n : Nat)
    (hA : tupleGet fs "attachment" = some (.Tuple afs))
    (hH : tupleGet afs "hash" = some (.Buffer hd))
    (hP : tupleGet afs "page-index" = some (.UIntV p))
    (hQ : tupleGet afs "position-in-page" = some (.UIntV q))
    (hOk : hd = [] ∨ hd.length = 20)
    (hMd : tupleGet afs "metadata" = none) :
    ∃ inst, AttachmentInstance.try_new_from_value (.Tuple fs) c ch bh n = .ok inst
      ∧ inst.metadata = "" :=
  ⟨_, (try_new_from_value_success_cases fs afs hd p q c ch bh n _
    hA hH hP hQ (hash_option_resolves hd hOk)).1 hMd, rfl⟩

/-- C9 witness: the sample value, which has no metadata field, succeeds with
empty metadata. -/
theorem try_new_from_value_metadata_absent_witness :
    ∃ inst, AttachmentInstance.try_new_from_value (.Tuple sampleFs) cid0 ch0 bhh0 11 =
        .ok inst ∧ inst.metadata = "" :=
  try_new_from_value_metadata_absent sampleFs sampleAfs (List.replicate 20 7) 3 4
    cid0 ch0 bhh0 11 rfl rfl rfl rfl (Or.inr (by simp)) rfl

/-- C6: on a well-shaped value with resolvable hash and a present `metadata`
field, a metadata value whose consensus serialization fails makes
`try_new_from_value` fail fatally (the panic outcome, not the recoverable
MalformedInstance error and not an instance); when serialization succeeds,
the instance's `metadata` is the hex encoding of the serialized bytes. -/
theorem try_new_from_value_metadata_outcomes
    (fs afs : List (String × ClarityValue)) (hd : List Nat) (p q : Nat)
    (c : QualifiedContractIdentifier) (ch : ConsensusHash)
    (bh : BlockHeaderHash) (n : Nat) (m : ClarityValue)
    (hA : tupleGet fs "attachment" = some (.Tuple afs))
    (hH : tupleGet afs "hash" = some (.Buffer hd))
    (hP : tupleGet afs "page-index" = some (.UIntV p))
    (hQ : tupleGet afs "position-in-page" = some (.UIntV q))
    (hOk : hd = [] ∨ hd.length = 20)
    (hMd : tupleGet afs "metadata" = some m) :
    (consensusSerialize m = none →
      AttachmentInstance.try_new_from_value (.Tuple fs) c ch bh n =
        .fatal "FATAL: invalid metadata")
    ∧ (∀ bs, consensusSerialize m = some bs →
      ∃ inst, AttachmentInstance.try_new_from_value (.Tuple fs) c ch bh n = .ok inst
        ∧ inst.metadata = to_hex bs) := by
  have hHash := hash_option_resolves hd hOk
  constructor
  · intro hS
    exact (try_new_from_value_success_cases fs afs hd p q c ch bh n _
      hA hH hP hQ hHash).2.2 m hMd hS
  · intro bs hS
    exact ⟨_, (try_new_from_value_success_cases fs afs hd p q c ch bh n _
      hA hH hP hQ hHash).2.1 m bs hMd hS, rfl⟩

/-- Attachment tuple carrying a metadata value that is not well formed at
the codec layer (a buffer entry that is not a byte), so its consensus
serialization fails. -/
def badMetaAfs : List (String × ClarityValue) :=
  [("hash", .Buffer []),
   ("page-index", .UIntV 0),
   ("position-in-page", .UIntV 0),
   ("metadata", .Buffer [256])]

/-- Outer value wrapping `badMetaAfs`. -/
def badMetaFs : List (String × ClarityValue) := [("attachment", .Tuple badMetaAfs)]

/-- C6 witness: a concrete unserializable metadata value makes the
translation fail fatally. -/
theorem try_new_from_value_metadata_outcomes_witness :
    AttachmentInstance.try_new_from_value (.Tuple badMetaFs) cid0 ch0 bhh0 9 =
      .fatal "FATAL: invalid metadata" :=
  (try_new_from_value_metadata_outcomes badMetaFs badMetaAfs [] 0 0 cid0 ch0 bhh0 9
    (.Buffer [256]) rfl rfl rfl rfl (Or.inl rfl) rfl).1 rfl

/-- Attachment tuple whose `page-index` and `position-in-page` exceed the
32-bit range. -/
def overflowAfs : List (String × ClarityValue) :=
  [("hash", .Buffer (List.replicate 20 7)),
   ("page-index", .UIntV (2 ^ 32)),
   ("position-in-page", .UIntV (2 ^ 32 + 5))]

/-- Outer value wrapping `overflowAfs`. -/
def overflowFs : List (String × ClarityValue) := [("attachment", .Tuple overflowAfs)]

/-- C1 counterexample: a well-formed value whose `page-index` field is
2^32 (outside the 32-bit range) is not rejected as MalformedInstance: the
translation succeeds and silently truncates the coordinates (`as u32`),
yielding `page_index = 0` and `position_in_page = 5`. -/
theorem try_new_from_value_truncates_counterexample :
    tupleGet overflowAfs "page-index" = some (.UIntV (2 ^ 32)) ∧
      tupleGet overflowAfs "position-in-page" = some (.UIntV (2 ^ 32 + 5)) ∧
      AttachmentInstance.try_new_from_value (.Tuple overflowFs) cid0 ch0 bhh0 1 =
        .ok ⟨⟨List.replicate 20 7⟩, 0, 5, 1, ch0, bhh0, "", cid0⟩ :=
  ⟨rfl, rfl, rfl⟩

/-- C1 (amended): `page-index` and `position-in-page` are narrowed with
`as u32`, i.e. reduced modulo 2^32: a well-shaped value with a resolvable
hash and serializable (or absent) metadata always succeeds, with the
coordinates truncated rather than rejected. -/
theorem try_new_from_value_coordinates_mod
    (fs afs : List (String × ClarityValue)) (hd : List Nat) (p q : Nat)
    (c : QualifiedContractIdentifier) (ch : ConsensusHash)
    (bh : BlockHeaderHash) (n : Nat)
    (hA : tupleGet fs "attachment" = some (.Tuple afs))
    (hH : tupleGet afs "hash" = some (.Buffer hd))
    (hP : tupleGet afs "page-index" = some (.UIntV p))
    (hQ : tupleGet afs "position-in-page" = some (.UIntV q))
    (hOk : hd = [] ∨ hd.length = 20)
    (hM : metadataOk afs) :
    ∃ inst, AttachmentInstance.try_new_from_value (.Tuple fs) c ch bh n = .ok inst
      ∧ inst.page_index = p % 2 ^ 32 ∧ inst.position_in_page = q % 2 ^ 32 := by
  obtain ⟨inst, hi, _, hp2, hq2⟩ := try_new_from_value_ok_of_shape fs afs hd p q c ch bh n _
    hA hH hP hQ (hash_option_resolves hd hOk) hM
  exact ⟨inst, hi, hp2, hq2⟩

/-- C1 (amended) witness: the out-of-range concrete coordinates 2^32 and
2^32 + 5 are accepted and reduced mod 2^32. -/
theorem try_new_from_value_coordinates_mod_witness :
    ∃ inst, AttachmentInstance.try_new_from_value (.Tuple overflowFs) cid0 ch0 bhh0 1 =
        .ok inst ∧ inst.page_index = 2 ^ 32 % 2 ^ 32 ∧
        inst.position_in_page = (2 ^ 32 + 5) % 2 ^ 32 :=
  try_new_from_value_coordinates_mod overflowFs overflowAfs (List.replicate 20 7)
    (2 ^ 32) (2 ^ 32 + 5) cid0 ch0 bhh0 1 rfl rfl rfl rfl (Or.inr (by simp))
    (fun m hm => Option.noConfusion hm)
